import Mathlib

/-!
Verification of the Monkey interpreter core (token, ast, object packages).

Each Go type and function used by the claims is embedded as a Lean
definition with the same structure: Go strings become Lean strings,
`int64` becomes `Int` with reduction modulo `2 ^ 64` where Go converts to
`uint64`, nil-able pointers become `Option`, and Go maps inside the
`Environment` become association lists with first-match lookup and
replace-or-append update.
-/

namespace Monkey

/-! ## token package -/

/-- Go: `type TokenType string`. -/
abbrev TokenType := String

def IDENT : TokenType := "IDENT"

def FUNCTION : TokenType := "FUNCTION"

def LET : TokenType := "LET"

def TRUE : TokenType := "TRUE"

def FALSE : TokenType := "FALSE"

def IF : TokenType := "IF"

def ELSE : TokenType := "ELSE"

def RETURN : TokenType := "RETURN"

/-- Go: the `keywords` map literal in the token package, as the ordered
list of its entries. -/
def keywords : List (String × TokenType) :=
  [("fn", FUNCTION), ("let", LET), ("true", TRUE), ("false", FALSE),
   ("if", IF), ("else", ELSE), ("return", RETURN)]

/-- Lookup in a Go map modelled as an association list: returns the value
of the matching key together with the ok flag encoded as `Option`. -/
def tableGet : List (String × TokenType) → String → Option TokenType
  | [], _ => none
  | (k, t) :: rest, s => if s = k then some t else tableGet rest s

/-- Go: `token.LookupIdent`. -/
def LookupIdent (ident : String) : TokenType :=
  match tableGet keywords ident with
  | some tok => tok
  | none => IDENT

/-! ## object package: hash keys -/

/-- Go: `type ObjectType string`. -/
abbrev ObjectType := String

def INTEGER_OBJ : ObjectType := "INTEGER"

def BOOLEAN_OBJ : ObjectType := "BOOLEAN"

def NULL_OBJ : ObjectType := "NULL"

def ERROR_OBJ : ObjectType := "ERROR"

def STRING_OBJ : ObjectType := "STRING"

def ARRAY_OBJ : ObjectType := "ARRAY"

def HASH_OBJ : ObjectType := "HASH"

/-- Go: `object.HashKey` with fields `Type ObjectType` and `Value uint64`;
the `uint64` field is a `Nat` kept below `2 ^ 64` by the operations that
build it. -/
structure HashKey where
  type : ObjectType
  value : Nat
  deriving DecidableEq, Repr

/-- The FNV-1a 64-bit offset basis used by Go's `fnv.New64a`. -/
def fnvOffsetBasis : Nat := 14695981039346656037

/-- The FNV 64-bit prime used by Go's `hash/fnv`. -/
def fnvPrime : Nat := 1099511628211

/-- FNV-1a over a byte sequence as Go's `fnv.New64a` / `Write` / `Sum64`
compute it: starting at the offset basis, each byte is xor-ed in and the
state is multiplied by the FNV prime modulo `2 ^ 64`. -/
def fnv64a (bytes : List Nat) : Nat :=
  bytes.foldl (fun h b => ((h ^^^ b) * fnvPrime) % 2 ^ 64) fnvOffsetBasis

/-- The UTF-8 bytes of a string, as Go's `[]byte(s)` conversion yields. -/
def stringBytes (s : String) : List Nat :=
  s.toUTF8.data.toList.map UInt8.toNat

/-- Go: `String.HashKey`: type tag `STRING_OBJ` and the FNV-1a 64-bit
hash of the string's UTF-8 bytes. -/
def stringHashKey (value : String) : HashKey :=
  { type := STRING_OBJ, value := fnv64a (stringBytes value) }

/-- Go: `Integer.HashKey`: type tag `INTEGER_OBJ` and `uint64(i.Value)`,
the two's-complement reinterpretation, i.e. the value modulo `2 ^ 64`. -/
def integerHashKey (value : Int) : HashKey :=
  { type := INTEGER_OBJ, value := (value % 2 ^ 64).toNat }

/-- Go: `Boolean.HashKey`: type tag `BOOLEAN_OBJ` and `1` for true,
`0` for false. -/
def booleanHashKey (value : Bool) : HashKey :=
  { type := BOOLEAN_OBJ, value := if value then 1 else 0 }

/-! ## object package: values and Inspect -/

/-- The Object variants of the object package that the claims mention.
`hash` carries the map's key-value `HashPair`s in iteration order, which
Go leaves unspecified. -/
inductive Obj where
  | integer (value : Int)
  | boolean (value : Bool)
  | null
  | str (value : String)
  | error (message : String)
  | array (elements : List Obj)
  | hash (pairs : List (Obj × Obj))
  deriving Repr

mutual

/-- Go: the `Inspect` methods of the object package: decimal for Integer
(`%d`), `%t` for Boolean, `null` for Null, the raw contents for String,
`ERROR: ` plus the message for Error, brackets around the comma-joined
element inspections for Array, and braces around the comma-joined pair
strings for Hash, each pair rendered by `fmt.Sprintf` with the format
`:%s: %s` applied to the key's and the value's inspection. -/
def inspect : Obj → String
  | .integer v => toString v
  | .boolean b => if b then "true" else "false"
  | .null => "null"
  | .str s => s
  | .error m => "ERROR: " ++ m
  | .array es => "[" ++ String.intercalate ", " (inspectElems es) ++ "]"
  | .hash ps => "\x7b" ++ String.intercalate ", " (inspectPairs ps) ++ "\x7d"

/-- Go: the `elements` loop of `Array.Inspect`. -/
def inspectElems : List Obj → List String
  | [] => []
  | e :: rest => inspect e :: inspectElems rest

/-- Go: the `pairs` loop of `Hash.Inspect`: each pair is rendered with
the format string `:%s: %s`. -/
def inspectPairs : List (Obj × Obj) → List String
  | [] => []
  | (k, v) :: rest => (":" ++ inspect k ++ ": " ++ inspect v) :: inspectPairs rest

end

/-! ## object package: Environment -/

/-- Go: `object.Environment`: a `store` map (modelled as an association
list) and a nil-able `outer` pointer (modelled as an `Option`). -/
inductive Env where
  | mk (store : List (String × Obj)) (outer : Option Env)

/-- The `store` field of an Environment. -/
def Env.store : Env → List (String × Obj)
  | .mk s _ => s

/-- The `outer` field of an Environment. -/
def Env.outer : Env → Option Env
  | .mk _ o => o

/-- Lookup in the Go map `store`: the value for the name and the ok flag,
encoded as an `Option`. -/
def storeGet : List (String × Obj) → String → Option Obj
  | [], _ => none
  | (k, v) :: rest, n => if n = k then some v else storeGet rest n

/-- Update of the Go map `store`: replaces the binding when the key is
present, otherwise adds it. -/
def storeSet : List (String × Obj) → String → Obj → List (String × Obj)
  | [], n, v => [(n, v)]
  | (k, w) :: rest, n, v =>
    if n = k then (n, v) :: rest else (k, w) :: storeSet rest n v

/-- Go: `NewEnvironment`: empty store, nil outer. -/
def newEnvironment : Env := .mk [] none

/-- Go: `NewEnclosedEnvironment`: a new environment whose outer link is
the argument. -/
def newEnclosedEnvironment (outer : Env) : Env := .mk [] (some outer)

/-- Go: `Environment.Get`: look in the own store; when missing and an
outer environment exists, recurse into it. -/
def Env.get : Env → String → Option Obj
  | .mk store outer, name =>
    match storeGet store name with
    | some obj => some obj
    | none =>
      match outer with
      | some e => e.get name
      | none => none

/-- Go: `Environment.Set`: writes into the own store and returns the
stored value; the updated environment is returned alongside to make the
state passing explicit. -/
def Env.set : Env → String → Obj → Obj × Env
  | .mk store outer, name, val => (val, .mk (storeSet store name val) outer)

/-- The chain of stores of an environment, innermost first. -/
def Env.scopes : Env → List (List (String × Obj))
  | .mk store none => [store]
  | .mk store (some e) => store :: e.scopes

/-- Lookup over a chain of stores, innermost first: the first store that
binds the name wins. -/
def chainLookup : List (List (String × Obj)) → String → Option Obj
  | [], _ => none
  | s :: rest, n =>
    match storeGet s n with
    | some obj => some obj
    | none => chainLookup rest n

/-! ## ast package -/

/-- Go: `token.Token`. -/
structure Token where
  type : TokenType
  literal : String
  deriving Repr, DecidableEq

/-- Go: `ast.Identifier`. -/
structure Identifier where
  token : Token
  value : String
  deriving Repr, DecidableEq

/-- Go: `Identifier.String` returns the identifier's value. -/
def Identifier.string (i : Identifier) : String := i.value

/-- The Expression implementors defined in ast.go: `Identifier` is the
only expression node in the file. -/
inductive Expression where
  | ident (i : Identifier)
  deriving Repr, DecidableEq

/-- Go: the `String` method of the dynamic Expression value. -/
def Expression.string : Expression → String
  | .ident i => i.string

/-- Go: `ast.LetStatement`; the nil-able `Value` pointer becomes an
`Option`. -/
structure LetStatement where
  token : Token
  name : Identifier
  value : Option Expression
  deriving Repr, DecidableEq

/-- Go: `LetStatement.TokenLiteral`. -/
def LetStatement.tokenLiteral (l : LetStatement) : String := l.token.literal

/-- Go: `LetStatement.String`: the token literal, a space, the name's
String, " = ", the value's String when non-nil, and ";". -/
def LetStatement.string (l : LetStatement) : String :=
  l.tokenLiteral ++ " " ++ l.name.string ++ " = " ++
    (match l.value with
     | some v => v.string
     | none => "") ++ ";"

/-- Go: `ast.ReturnStatement`; the nil-able `ReturnValue` pointer becomes
an `Option`. -/
structure ReturnStatement where
  token : Token
  returnValue : Option Expression
  deriving Repr, DecidableEq

/-- Go: `ReturnStatement.TokenLiteral`. -/
def ReturnStatement.tokenLiteral (r : ReturnStatement) : String := r.token.literal

/-- Go: `ReturnStatement.String`: the token literal, a space, the return
value's String when non-nil, and ";". -/
def ReturnStatement.string (r : ReturnStatement) : String :=
  r.tokenLiteral ++ " " ++
    (match r.returnValue with
     | some v => v.string
     | none => "") ++ ";"

/-! ## Helper lemmas -/

/-- The element loop of `Array.Inspect` collects exactly the inspections
of the elements, in order. -/
theorem inspectElems_eq_map (es : List Obj) :
    inspectElems es = es.map inspect := by
  induction es with
  | nil => simp [inspectElems]
  | cons e rest ih => simp [inspectElems, ih]

/-- The pair loop of `Hash.Inspect` renders each stored pair with the
format `:%s: %s`. -/
theorem inspectPairs_eq_map (ps : List (Obj × Obj)) :
    inspectPairs ps = ps.map fun p => ":" ++ inspect p.1 ++ ": " ++ inspect p.2 := by
  induction ps with
  | nil => simp [inspectPairs]
  | cons p rest ih =>
    obtain ⟨k, v⟩ := p
    simp [inspectPairs, ih]

/-- `Environment.Get` agrees with first-match lookup over the chain of
stores listed innermost first. -/
theorem Env.get_eq_chainLookup : ∀ (e : Env) (n : String),
    Env.get e n = chainLookup (Env.scopes e) n
  | .mk store none, n => by
    simp [Env.get, Env.scopes, chainLookup]
  | .mk store (some o), n => by
    have ih := Env.get_eq_chainLookup o n
    simp [Env.get, Env.scopes, chainLookup, ih]

/-- Chain lookup fails exactly when every store in the chain lacks the
name. -/
theorem chainLookup_eq_none_iff (ss : List (List (String × Obj))) (n : String) :
    chainLookup ss n = none ↔ (ss.all fun s => (storeGet s n).isNone) = true := by
  induction ss with
  | nil => simp [chainLookup]
  | cons s rest ih =>
    cases h : storeGet s n with
    | none => simp [chainLookup, h, ih]
    | some obj => simp [chainLookup, h]

/-! ## Claim theorems -/

/-- C1: at the one-pair hash whose key inspects as `1` and whose value
inspects as `2`, `Hash.Inspect` produces an extra colon in front of the
key — the output is `\x7b:1: 2\x7d` and not the claimed `\x7b1: 2\x7d` —
because the pair format string is `:%s: %s` rather than `%s: %s`. -/
theorem hash_inspect_colon_bug :
    inspect (.hash [(.integer 1, .integer 2)]) = "\x7b:1: 2\x7d" ∧
    inspect (.hash [(.integer 1, .integer 2)]) ≠ "\x7b1: 2\x7d" := by
  exact ⟨by decide, by decide⟩

/-- C2: `Environment.Get` returns the binding of the innermost scope that
binds the name, walking the outer links outward (it equals first-match
lookup over the chain of stores, innermost first), and returns not-found
exactly when every scope in the chain lacks the name; `Environment.Set`
writes the binding into the innermost scope's store and leaves the outer
link unchanged. -/
theorem env_get_innermost_set_innermost (e : Env) (name : String) (val : Obj) :
    Env.get e name = chainLookup (Env.scopes e) name ∧
    (Env.get e name = none ↔ ((Env.scopes e).all fun s => (storeGet s name).isNone) = true) ∧
    (Env.set e name val).2.store = storeSet e.store name val ∧
    (Env.set e name val).2.outer = e.outer := by
  refine ⟨Env.get_eq_chainLookup e name, ?_, ?_, ?_⟩
  · rw [Env.get_eq_chainLookup e name]
    exact chainLookup_eq_none_iff (Env.scopes e) name
  · cases e with
    | mk store outerE => simp [Env.set, Env.store]
  · cases e with
    | mk store outerE => simp [Env.set, Env.outer]

/-- C3: `String.HashKey` is the pair of the `STRING` type tag and the
FNV-1a 64-bit hash of the string's UTF-8 bytes (offset basis
14695981039346656037; per byte: xor, then multiply by 1099511628211
modulo 2 ^ 64), so two Strings with equal content have equal HashKeys. -/
theorem string_hashKey_content (s1 s2 : String) (h : s1 = s2) :
    stringHashKey s1 =
      { type := STRING_OBJ,
        value := (stringBytes s1).foldl
          (fun h b => ((h ^^^ b) * 1099511628211) % 2 ^ 64) 14695981039346656037 } ∧
    stringHashKey s1 = stringHashKey s2 := by
  subst h
  exact ⟨rfl, rfl⟩

/-- Witness for C3 at the test strings of the repository. -/
theorem string_hashKey_content_witness :
    stringHashKey "Hello World" =
      { type := STRING_OBJ,
        value := (stringBytes "Hello World").foldl
          (fun h b => ((h ^^^ b) * 1099511628211) % 2 ^ 64) 14695981039346656037 } ∧
    stringHashKey "Hello World" = stringHashKey "Hello World" :=
  string_hashKey_content "Hello World" "Hello World" rfl

/-- How the spec reads `uint64(v)` for an `int64` value `v`: the two's
complement reinterpretation as an unsigned 64-bit number. -/
def uint64OfInt64 (v : Int) : Nat :=
  if 0 ≤ v then v.toNat else (2 ^ 64 + v).toNat

/-- C4: `Integer.HashKey` is the `INTEGER` tag with the int64 value
reinterpreted as unsigned 64-bit; `Boolean.HashKey` is the `BOOLEAN` tag
with 1 for true and 0 for false; equal values give equal keys. -/
theorem integer_boolean_hashKey (v v1 v2 : Int) (b1 b2 : Bool)
    (hlo : -(2 ^ 63) ≤ v) (hhi : v < 2 ^ 63) (hv : v1 = v2) (hb : b1 = b2) :
    integerHashKey v = { type := INTEGER_OBJ, value := uint64OfInt64 v } ∧
    booleanHashKey true = { type := BOOLEAN_OBJ, value := 1 } ∧
    booleanHashKey false = { type := BOOLEAN_OBJ, value := 0 } ∧
    integerHashKey v1 = integerHashKey v2 ∧
    booleanHashKey b1 = booleanHashKey b2 := by
  subst hv
  subst hb
  refine ⟨?_, rfl, rfl, rfl, rfl⟩
  simp only [integerHashKey, uint64OfInt64, HashKey.mk.injEq, true_and]
  split
  · omega
  · omega

/-- Witness for C4 at the value -5 (which reinterprets as
2 ^ 64 - 5). -/
theorem integer_boolean_hashKey_witness :
    (-(2 ^ 63) ≤ (-5 : Int) ∧ (-5 : Int) < 2 ^ 63) ∧
    (integerHashKey (-5) = { type := INTEGER_OBJ, value := uint64OfInt64 (-5) } ∧
     booleanHashKey true = { type := BOOLEAN_OBJ, value := 1 } ∧
     booleanHashKey false = { type := BOOLEAN_OBJ, value := 0 } ∧
     integerHashKey 7 = integerHashKey 7 ∧
     booleanHashKey true = booleanHashKey true) :=
  ⟨by decide,
   integer_boolean_hashKey (-5) 7 7 true true (by decide) (by decide) rfl rfl⟩

/-- C5: `LookupIdent` returns the keyword token kind for exactly the
seven keywords `fn`, `let`, `true`, `false`, `if`, `else`, `return`, and
`IDENT` for every other lexeme. -/
theorem lookupIdent_keyword_table (s : String)
    (h1 : s ≠ "fn") (h2 : s ≠ "let") (h3 : s ≠ "true") (h4 : s ≠ "false")
    (h5 : s ≠ "if") (h6 : s ≠ "else") (h7 : s ≠ "return") :
    LookupIdent "fn" = FUNCTION ∧ LookupIdent "let" = LET ∧
    LookupIdent "true" = TRUE ∧ LookupIdent "false" = FALSE ∧
    LookupIdent "if" = IF ∧ LookupIdent "else" = ELSE ∧
    LookupIdent "return" = RETURN ∧ LookupIdent s = IDENT := by
  refine ⟨by decide, by decide, by decide, by decide, by decide, by decide, by decide, ?_⟩
  simp [LookupIdent, tableGet, keywords, h1, h2, h3, h4, h5, h6, h7]

/-- Witness for C5 at the non-keyword lexeme `foobar`. -/
theorem lookupIdent_keyword_table_witness :
    LookupIdent "fn" = FUNCTION ∧ LookupIdent "let" = LET ∧
    LookupIdent "true" = TRUE ∧ LookupIdent "false" = FALSE ∧
    LookupIdent "if" = IF ∧ LookupIdent "else" = ELSE ∧
    LookupIdent "return" = RETURN ∧ LookupIdent "foobar" = IDENT :=
  lookupIdent_keyword_table "foobar" (by decide) (by decide) (by decide)
    (by decide) (by decide) (by decide) (by decide)

/-- C6: with a non-null value and the `let` token literal,
`LetStatement.String` is `let <name> = <value>;`; with a non-null return
value and the `return` token literal, `ReturnStatement.String` is
`return <expr>;`. -/
theorem let_return_statement_string (lt rt : Token) (name : Identifier)
    (e1 e2 : Expression) (hl : lt.literal = "let") (hr : rt.literal = "return") :
    (LetStatement.mk lt name (some e1)).string =
      "let " ++ name.value ++ " = " ++ e1.string ++ ";" ∧
    (ReturnStatement.mk rt (some e2)).string = "return " ++ e2.string ++ ";" := by
  constructor
  · show lt.literal ++ " " ++ name.value ++ " = " ++ e1.string ++ ";" = _
    rw [hl]
    rw [show ("let" : String) ++ " " = "let " from by decide]
  · show rt.literal ++ " " ++ e2.string ++ ";" = _
    rw [hr]
    rw [show ("return" : String) ++ " " = "return " from by decide]

/-- Witness for C6 at `let x = y;` and `return y;`. -/
theorem let_return_statement_string_witness :
    (LetStatement.mk (Token.mk LET "let") (Identifier.mk (Token.mk IDENT "x") "x")
        (some (.ident (Identifier.mk (Token.mk IDENT "y") "y")))).string =
      "let " ++ "x" ++ " = " ++
        (Expression.ident (Identifier.mk (Token.mk IDENT "y") "y")).string ++ ";" ∧
    (ReturnStatement.mk (Token.mk RETURN "return")
        (some (.ident (Identifier.mk (Token.mk IDENT "y") "y")))).string =
      "return " ++ (Expression.ident (Identifier.mk (Token.mk IDENT "y") "y")).string ++ ";" :=
  let_return_statement_string (Token.mk LET "let") (Token.mk RETURN "return")
    (Identifier.mk (Token.mk IDENT "x") "x")
    (.ident (Identifier.mk (Token.mk IDENT "y") "y"))
    (.ident (Identifier.mk (Token.mk IDENT "y") "y")) rfl rfl

/-- C7: `Error.Inspect` is exactly `ERROR: ` followed by the message. -/
theorem error_inspect_message (m : String) :
    inspect (.error m) = "ERROR: " ++ m := rfl

/-- C8: `Array.Inspect` is `[` followed by the elements' inspections in
order joined by `, ` followed by `]`; the empty Array inspects as
`[]`. -/
theorem array_inspect_format (es : List Obj) :
    inspect (.array es) = "[" ++ String.intercalate ", " (es.map inspect) ++ "]" ∧
    inspect (.array ([] : List Obj)) = "[]" := by
  refine ⟨?_, rfl⟩
  show "[" ++ String.intercalate ", " (inspectElems es) ++ "]" = _
  rw [inspectElems_eq_map]

/-- C9: `Set` on an environment created by `NewEnclosedEnvironment`
returns exactly the stored value and only fills the inner store: the
resulting environment is the singleton inner store with the original
outer environment unchanged behind it, so every binding of the outer
chain is untouched. -/
theorem enclosed_set_frame (outer : Env) (name : String) (val : Obj) :
    ((newEnclosedEnvironment outer).set name val).1 = val ∧
    ((newEnclosedEnvironment outer).set name val).2 = Env.mk [(name, val)] (some outer) ∧
    Env.scopes ((newEnclosedEnvironment outer).set name val).2 =
      [(name, val)] :: Env.scopes outer := by
  refine ⟨rfl, rfl, ?_⟩
  cases outer with
  | mk store outerE => cases outerE <;> simp [newEnclosedEnvironment, Env.set, Env.scopes, storeSet]

/-- C10: `Integer.HashKey` is injective on int64 values, and HashKeys of
different object types (Integer, Boolean, String) are never equal because
the type tag is part of the field-wise equality. -/
theorem hashKey_injective_typed (v1 v2 w : Int) (b : Bool) (s : String)
    (h1lo : -(2 ^ 63) ≤ v1) (h1hi : v1 < 2 ^ 63)
    (h2lo : -(2 ^ 63) ≤ v2) (h2hi : v2 < 2 ^ 63) (hne : v1 ≠ v2) :
    integerHashKey v1 ≠ integerHashKey v2 ∧
    integerHashKey w ≠ booleanHashKey b ∧
    integerHashKey w ≠ stringHashKey s ∧
    booleanHashKey b ≠ stringHashKey s := by
  refine ⟨?_, ?_, ?_, ?_⟩
  · intro hcontra
    have hval : (v1 % 2 ^ 64).toNat = (v2 % 2 ^ 64).toNat :=
      congrArg HashKey.value hcontra
    omega
  · intro hcontra
    have htype : INTEGER_OBJ = BOOLEAN_OBJ := congrArg HashKey.type hcontra
    exact absurd htype (by decide)
  · intro hcontra
    have htype : INTEGER_OBJ = STRING_OBJ := congrArg HashKey.type hcontra
    exact absurd htype (by decide)
  · intro hcontra
    have htype : BOOLEAN_OBJ = STRING_OBJ := congrArg HashKey.type hcontra
    exact absurd htype (by decide)

/-- Witness for C10 at the Integer values 0 and 1, the Boolean true and
the String `a`. -/
theorem hashKey_injective_typed_witness :
    (-(2 ^ 63) ≤ (0 : Int) ∧ (0 : Int) < 2 ^ 63 ∧
     -(2 ^ 63) ≤ (1 : Int) ∧ (1 : Int) < 2 ^ 63 ∧ (0 : Int) ≠ 1) ∧
    (integerHashKey 0 ≠ integerHashKey 1 ∧
     integerHashKey 5 ≠ booleanHashKey true ∧
     integerHashKey 5 ≠ stringHashKey "a" ∧
     booleanHashKey true ≠ stringHashKey "a") :=
  ⟨by decide,
   hashKey_injective_typed 0 1 5 true "a" (by decide) (by decide)
     (by decide) (by decide) (by decide)⟩

end Monkey
